import Mathlib

/-!
# Verification of the Violina frame-streaming client and pose pipeline

Shallow embedding of the repository's client-side Frame Streaming
Coordinator (`front-end/src/components/Webcam.jsx`, the socket.io variant
with the `waitingRef` single-flight latch), of the dimension computation in
its capture loop, of the frequency-refinement step of the pitch detector
(`front-end/src/components/Tuner.jsx`, `autoCorrelate`), and of the
baseline-aggregation and configuration operations of the back-end scoring
service (whose Python sources are not in the repository snapshot; those two
are modelled from the specification, as marked on their definitions).

JavaScript `null`-able refs become `Option`/`Bool` fields; the truthiness
convention is `none` = `null`/falsy. Machine reals of the dimension and
pitch computations become `ℚ` (the numbers involved are exact in binary
floating point at every input used here, and the claims are algebraic).
-/

namespace Violina

/-- State of the socket.io client handle held in `socketRef`.
`connected` mirrors `socket.connected`. -/
structure SocketState where
  connected : Bool
deriving DecidableEq, Repr

/-- Feedback for one joint, as delivered in the `joints` mapping of a
`pose_analysis` message. The payload text is opaque to the client. -/
abbrev JointFeedback := List (String × String)

/-- One `pose_analysis` message from the server, per the handler in
`connectSocket`: `processed_image`, `error`, `score`, `joints`.
`none` stands for `null`/absent/falsy. -/
structure PoseData where
  processed_image : Option String
  error : Option String
  score : Option ℚ
  joints : JointFeedback
deriving DecidableEq, Repr

/-- The mutable client state of the `Webcam` component: the refs
(`streamRef`, `socketRef`, `frameRequestRef`, `waitingRef`, the video
element's `srcObject`) and the React state the socket handler writes
(`processedImg` locally; `score`, `error`, `joints` via the parent's
setters; `isActive` via `props.setIsActive`). Booleans for refs record
whether the ref currently holds a live resource (non-`null`). -/
structure ClientState where
  stream : Bool
  socket : Option SocketState
  frameReq : Bool
  waiting : Bool
  videoSrc : Bool
  processedImg : Option String
  score : Option ℚ
  error : Option String
  joints : JointFeedback
  isActive : Bool
deriving DecidableEq, Repr

/-- The component's state before any `startWebcam`: every ref is `null`,
the latch is clear, no React state set. -/
def initialState : ClientState :=
  { stream := false, socket := none, frameReq := false, waiting := false
    videoSrc := false, processedImg := none, score := none, error := none
    joints := [], isActive := false }

/-- Function `stopWebcam` (Webcam.jsx lines 118–141): cancel the animation frame and
null the ref, disconnect and null the socket, stop the tracks and null the
stream, null the video source, clear the latch, clear the processed image,
set inactive. Every access in the source is null-guarded, so the function
is total. -/
def stopWebcam (s : ClientState) : ClientState :=
  { s with frameReq := false, socket := none, stream := false
           videoSrc := false, waiting := false, processedImg := none
           isActive := false }

/-- Function `startWebcam` (Webcam.jsx lines 101–116): acquire the camera stream,
attach it to the video element, `connectSocket` (creates a fresh socket,
not yet connected), `startFrameCapture` (schedules the loop), set active.
It does not touch `waitingRef`. -/
def startWebcam (s : ClientState) : ClientState :=
  { s with stream := true, videoSrc := true
           socket := some { connected := false }
           frameReq := true, isActive := true }

/-- The socket's `connect` event: the held socket (if any) becomes
connected. -/
def sockConnect (s : ClientState) : ClientState :=
  match s.socket with
  | some _ => { s with socket := some { connected := true } }
  | none => s

/-- Channel interruption: the held socket (if any) loses its connection.
No handler in `connectSocket` observes this, so nothing else changes. -/
def sockDown (s : ClientState) : ClientState :=
  match s.socket with
  | some _ => { s with socket := some { connected := false } }
  | none => s

/-- The `pose_analysis` handler body (Webcam.jsx lines 154–173): if a
processed image is present, display it; if `error` is truthy, surface it
and clear score and joints, else clear the error and apply score and
joints; finally clear the backpressure latch. -/
def handlePoseAnalysis (s : ClientState) (d : PoseData) : ClientState :=
  let s1 := match d.processed_image with
    | some img => { s with processedImg := some img }
    | none => s
  let s2 := match d.error with
    | some e => { s1 with error := some e, score := none, joints := [] }
    | none => { s1 with error := none, score := d.score, joints := d.joints }
  { s2 with waiting := false }

/-- Delivery of a server result: the `pose_analysis` handler is registered
on the socket object, so a result reaches the component only while that
socket exists and is connected; otherwise the message is dropped by the
closed channel. Returns the new state and whether delivery happened. -/
def deliverResult (s : ClientState) (d : PoseData) : ClientState × Bool :=
  match s.socket with
  | some sock => if sock.connected then (handlePoseAnalysis s d, true) else (s, false)
  | none => (s, false)

/-- One tick of `frameLoop` (Webcam.jsx lines 188–227), parameterised by
the video element's current dimensions. The tick re-schedules itself, then:
returns if the video is absent or has zero width; returns if the latch is
set; otherwise draws the frame and, if the socket exists and is connected,
sets the latch and emits. Returns the new state and whether a frame was
transmitted. A tick with `frameReq = false` never runs (the callback was
cancelled), modelled as a no-op. -/
def frameTick (s : ClientState) (vw _vh : ℕ) : ClientState × Bool :=
  if s.frameReq = false then (s, false)
  else if vw = 0 then (s, false)
  else if s.waiting then (s, false)
  else match s.socket with
    | some sock =>
        if sock.connected then ({ s with waiting := true }, true) else (s, false)
    | none => (s, false)

/-! ## Session traces with a fake transport

To check the single-flight discipline we run the client against a fake
transport that counts in-flight sends: a transmitted frame increments the
counter, a server result (which can only exist for a previously sent
frame) decrements it, whether it is delivered to the component or dropped
by a closed channel. Events cover everything that can happen during one
session after `startWebcam`: the socket's `connect` event, capture ticks,
server results, channel interruption, and `stopWebcam`. -/

/-- The client state joined with the fake transport's count of
sent-but-unanswered frames. -/
structure Flight where
  client : ClientState
  inflight : ℕ
deriving DecidableEq, Repr

/-- An event observable during one capture session. -/
inductive SessEv where
  | sockOpen : SessEv
  | tick (vw vh : ℕ) : SessEv
  | result (d : PoseData) : SessEv
  | chanDown : SessEv
  | stopEv : SessEv
deriving DecidableEq, Repr

/-- One step of the session against the fake transport. A `result` event
is only meaningful while a frame is outstanding; it decrements the
in-flight count and reaches the component only through `deliverResult`. -/
def sessStep (f : Flight) : SessEv → Flight
  | .sockOpen => { f with client := sockConnect f.client }
  | .tick vw vh =>
      let p := frameTick f.client vw vh
      { client := p.1, inflight := f.inflight + (if p.2 then 1 else 0) }
  | .result d =>
      if f.inflight = 0 then f
      else { client := (deliverResult f.client d).1, inflight := f.inflight - 1 }
  | .chanDown => { f with client := sockDown f.client }
  | .stopEv => { f with client := stopWebcam f.client }

/-- Run a session trace from a start state. -/
def sessRun (f : Flight) (evs : List SessEv) : Flight :=
  evs.foldl sessStep f

/-- The state in which a session begins: `startWebcam` applied to the
component's state, with nothing in flight yet. -/
def sessionStart (s : ClientState) : Flight :=
  { client := startWebcam s, inflight := 0 }

/-- The single-flight invariant maintained during a session: at most one
frame is outstanding, and an outstanding frame is covered either by the
set latch or by a cancelled loop (after `stopWebcam`). -/
def FlightInv (f : Flight) : Prop :=
  f.inflight = 0 ∨
    (f.inflight = 1 ∧ (f.client.waiting = true ∨ f.client.frameReq = false))

/-! ## Frame dimensions on transmit (startFrameCapture)

`MAX_WIDTH = 960`, `scale = Math.min(1, MAX_WIDTH / video.videoWidth)`,
`targetWidth = Math.round(videoWidth * scale)`,
`targetHeight = Math.round(videoHeight * scale)`. JavaScript `Math.round`
rounds half away from zero toward +∞, which on nonnegative arguments is
Mathlib's `round` (⌊x + 1/2⌋). -/

/-- Constant `MAX_WIDTH` (Webcam.jsx line 185). -/
def MAX_WIDTH : ℚ := 960

/-- The `scale` factor for a given `video.videoWidth` (Webcam.jsx line 198). -/
def scaleFor (vw : ℕ) : ℚ := min 1 (MAX_WIDTH / vw)

/-- The `targetWidth` of the transmitted frame (Webcam.jsx line 199). -/
def targetWidth (vw : ℕ) : ℤ := round ((vw : ℚ) * scaleFor vw)

/-- The `targetHeight` of the transmitted frame (Webcam.jsx line 200). -/
def targetHeight (vw vh : ℕ) : ℤ := round ((vh : ℚ) * scaleFor vw)

/-! ## Pitch-detection frequency refinement (Tuner.jsx, autoCorrelate) -/

/-- The interpolation shift of `autoCorrelate` (Tuner.jsx line 75):
`(correlation - lastCorrelation) / (correlation - lastCorrelation)`,
exactly as written in the source, numerator and denominator identical. -/
def refinementShift (correlation lastCorrelation : ℚ) : ℚ :=
  (correlation - lastCorrelation) / (correlation - lastCorrelation)

/-- The early-return value of `autoCorrelate` (Tuner.jsx line 76):
`sampleRate / (bestOffset + shift)`. -/
def refinedFrequency (sampleRate bestOffset correlation lastCorrelation : ℚ) : ℚ :=
  sampleRate / (bestOffset + refinementShift correlation lastCorrelation)

/-! ## Back-end scoring service

The Python sources of the Baseline Aggregator (`baseline_collector.py`)
and of the `/configure` endpoint (`correctForm.py`) are not part of the
repository snapshot; only their documentation is
(`back-end/pose_comparison.md`). The two definitions below are therefore
modelled from the specification, as their doc comments state. -/

/-- Insert into an ascending list, keeping it ascending. -/
def insertAsc (x : ℚ) : List ℚ → List ℚ
  | [] => [x]
  | y :: ys => if x ≤ y then x :: y :: ys else y :: insertAsc x ys

/-- Insertion sort, ascending. -/
def sortAsc : List ℚ → List ℚ
  | [] => []
  | x :: xs => insertAsc x (sortAsc xs)

/-- Median of a list of rationals: middle element of the sorted list for
odd length, mean of the two middle elements for even length, `none` for
the empty list. -/
def medianQ (l : List ℚ) : Option ℚ :=
  match l with
  | [] => none
  | _ =>
    let n := l.length
    let s := sortAsc l
    if n % 2 = 1 then some (s.getD (n / 2) 0)
    else some ((s.getD (n / 2 - 1) 0 + s.getD (n / 2) 0) / 2)

/-- Arithmetic mean of a list of rationals, `none` for the empty list. -/
def averageQ (l : List ℚ) : Option ℚ :=
  match l with
  | [] => none
  | _ => some (l.sum / l.length)

/-- Aggregation method of the Baseline Aggregator: `average` or `median`. -/
inductive AggMethod where
  | average : AggMethod
  | median : AggMethod
deriving DecidableEq, Repr

/-- Modelled from the spec: the Baseline Aggregator
(`baseline_collector.py`, absent from the repository snapshot). Per §4.2,
for a joint present across the set of reference frames it computes the
central tendency of its position with the chosen method — mean for
`average`, median for `median` — coordinate-wise over the samples. -/
def collect_baseline (method : AggMethod) (samples : List (ℚ × ℚ)) :
    Option (ℚ × ℚ) :=
  let agg := match method with
    | .average => averageQ
    | .median => medianQ
  match agg (samples.map Prod.fst), agg (samples.map Prod.snd) with
  | some x, some y => some (x, y)
  | _, _ => none

/-- The scoring thresholds of §3: `position_threshold` (normalized
distance), `angle_threshold` (degrees), `accuracy_threshold`
(percentage). -/
structure ScoringConfig where
  position_threshold : ℚ
  angle_threshold : ℚ
  accuracy_threshold : ℚ
deriving DecidableEq, Repr

/-- A partial update to the configuration, one optional field per
threshold, as posted to `/configure`. -/
structure ConfigUpdate where
  position_threshold : Option ℚ := none
  angle_threshold : Option ℚ := none
  accuracy_threshold : Option ℚ := none
deriving DecidableEq, Repr

/-- The default configuration of §4.3: position 0.10, angle 15°,
accuracy 75%. -/
def defaultConfig : ScoringConfig :=
  { position_threshold := 1/10, angle_threshold := 15
    accuracy_threshold := 75 }

/-- Error `ConfigurationError` of the taxonomy of §7. -/
inductive ConfigError where
  | outOfRange : ConfigError
deriving DecidableEq, Repr

/-- Overwrite the fields present in the update. -/
def applyUpdate (c : ScoringConfig) (u : ConfigUpdate) : ScoringConfig :=
  { position_threshold := u.position_threshold.getD c.position_threshold
    angle_threshold := u.angle_threshold.getD c.angle_threshold
    accuracy_threshold := u.accuracy_threshold.getD c.accuracy_threshold }

/-- The valid ranges of §3/§6: position deviation in (0, 1], angle in
[0, 180] degrees, accuracy percentage in [0, 100]. -/
def validConfig (c : ScoringConfig) : Bool :=
  0 < c.position_threshold && c.position_threshold ≤ 1 &&
  0 ≤ c.angle_threshold && c.angle_threshold ≤ 180 &&
  0 ≤ c.accuracy_threshold && c.accuracy_threshold ≤ 100

/-- Modelled from the spec: the `/configure` endpoint (`correctForm.py`,
absent from the repository snapshot). Per §3 and §7, an update whose
resulting thresholds leave the valid ranges is rejected with
`ConfigurationError`; an accepted update yields the new configuration. -/
def configure (c : ScoringConfig) (u : ConfigUpdate) :
    Except ConfigError ScoringConfig :=
  let c2 := applyUpdate c u
  if validConfig c2 then .ok c2 else .error .outOfRange

/-- The session's configuration after a `configure` call: the new one on
acceptance, the prior one retained on rejection (§7: rejected atomically,
previous configuration unchanged). -/
def configAfter (c : ScoringConfig) (u : ConfigUpdate) : ScoringConfig :=
  match configure c u with
  | .ok c2 => c2
  | .error _ => c

/-! ## Concrete states used by the witnesses -/

/-- The client state right after `startWebcam` once the socket's `connect`
event has fired: camera held, loop scheduled, channel up, latch clear. -/
def demoActive : ClientState := sockConnect (startWebcam initialState)

/-- State `demoActive` with a frame in flight (the latch set). -/
def demoWaiting : ClientState := { demoActive with waiting := true }

/-- A successful `pose_analysis` message. -/
def demoData : PoseData :=
  { processed_image := some ("overlay"), error := none, score := some 87
    joints := [("left_wrist", "Wrist position is correct")] }

/-- An error `pose_analysis` message. -/
def demoErrData : PoseData :=
  { processed_image := none, error := some ("No pose detected"), score := none
    joints := [] }

/-- A session that sent one frame and then lost the channel with the
result still pending: connect, one transmitting tick, interruption. -/
def deadFlight : Flight :=
  sessRun (sessionStart initialState) [.sockOpen, .tick 640 480, .chanDown]

/-- The five per-joint reference samples of the spec's §8 test vector. -/
def baselineSamples : List (ℚ × ℚ) :=
  [(1/2, 3/10), (1/2, 3/10), (1/2, 3/10), (1/2, 3/10), (9/10, 9/10)]

/-! ## Helper lemmas -/

theorem sockConnect_waiting (s : ClientState) :
    (sockConnect s).waiting = s.waiting := by
  cases h : s.socket <;> simp [sockConnect, h]

theorem sockConnect_frameReq (s : ClientState) :
    (sockConnect s).frameReq = s.frameReq := by
  cases h : s.socket <;> simp [sockConnect, h]

theorem sockDown_waiting (s : ClientState) :
    (sockDown s).waiting = s.waiting := by
  cases h : s.socket <;> simp [sockDown, h]

theorem sockDown_frameReq (s : ClientState) :
    (sockDown s).frameReq = s.frameReq := by
  cases h : s.socket <;> simp [sockDown, h]

theorem sockDown_error (s : ClientState) :
    (sockDown s).error = s.error := by
  cases h : s.socket <;> simp [sockDown, h]

theorem handlePose_frameReq (s : ClientState) (d : PoseData) :
    (handlePoseAnalysis s d).frameReq = s.frameReq := by
  cases h1 : d.processed_image <;> cases h2 : d.error <;>
    simp [handlePoseAnalysis, h1, h2]

theorem handlePose_socket (s : ClientState) (d : PoseData) :
    (handlePoseAnalysis s d).socket = s.socket := by
  cases h1 : d.processed_image <;> cases h2 : d.error <;>
    simp [handlePoseAnalysis, h1, h2]

theorem handlePose_waiting (s : ClientState) (d : PoseData) :
    (handlePoseAnalysis s d).waiting = false := by
  cases h1 : d.processed_image <;> cases h2 : d.error <;>
    simp [handlePoseAnalysis, h1, h2]

theorem deliverResult_socket (s : ClientState) (d : PoseData) :
    (deliverResult s d).1.socket = s.socket := by
  cases h : s.socket with
  | none => simp [deliverResult, h]
  | some sock =>
      cases hc : sock.connected <;>
        simp [deliverResult, h, hc, handlePose_socket]

theorem deliverResult_of_socket_none (s : ClientState) (d : PoseData)
    (h : s.socket = none) : deliverResult s d = (s, false) := by
  simp [deliverResult, h]

/-- The tick of `frameLoop` in closed form: it transmits exactly when the
loop is scheduled, the video has nonzero width, the latch is clear and the
socket is connected; a transmitting tick sets the latch, any other tick
changes nothing. -/
theorem frameTick_eq (s : ClientState) (vw vh : ℕ) :
    frameTick s vw vh =
      if s.frameReq = true ∧ vw ≠ 0 ∧ s.waiting = false ∧
          s.socket = some { connected := true }
      then ({ s with waiting := true }, true)
      else (s, false) := by
  unfold frameTick
  cases hfr : s.frameReq <;> cases hw : s.waiting <;>
    by_cases hv : vw = 0 <;>
    simp [hfr, hw, hv]
  · cases hs : s.socket with
    | none => simp [hs]
    | some sock =>
        obtain ⟨b⟩ := sock
        cases b <;> simp [hs]

theorem frameTick_of_waiting (s : ClientState) (vw vh : ℕ)
    (h : s.waiting = true) : frameTick s vw vh = (s, false) := by
  simp [frameTick_eq, h]

theorem frameTick_socket (s : ClientState) (vw vh : ℕ) :
    (frameTick s vw vh).1.socket = s.socket := by
  rw [frameTick_eq]; split <;> rfl

theorem sockConnect_of_socket_none (s : ClientState) (h : s.socket = none) :
    sockConnect s = s := by
  simp [sockConnect, h]

theorem sockDown_of_socket_none (s : ClientState) (h : s.socket = none) :
    sockDown s = s := by
  simp [sockDown, h]

theorem flightInv_step (f : Flight) (e : SessEv) (h : FlightInv f) :
    FlightInv (sessStep f e) := by
  unfold FlightInv at h ⊢
  cases e with
  | sockOpen =>
      simpa [sessStep, sockConnect_waiting, sockConnect_frameReq] using h
  | tick vw vh =>
      simp only [sessStep, frameTick_eq]
      split
      case isTrue hc =>
        rcases h with h0 | ⟨h1, hwf⟩
        · exact Or.inr ⟨by simp [h0], Or.inl rfl⟩
        · rcases hwf with hw | hf
          · exact absurd hw (by simp [hc.2.2.1])
          · exact absurd hf (by simp [hc.1])
      case isFalse =>
        simpa using h
  | result d =>
      simp only [sessStep]
      split
      case isTrue => exact h
      case isFalse hne =>
        rcases h with h0 | ⟨h1, _⟩
        · exact absurd h0 hne
        · exact Or.inl (by simp [h1])
  | chanDown =>
      simpa [sessStep, sockDown_waiting, sockDown_frameReq] using h
  | stopEv =>
      rcases h with h0 | ⟨h1, _⟩
      · exact Or.inl (by simpa [sessStep] using h0)
      · exact Or.inr ⟨by simpa [sessStep] using h1, Or.inr (by simp [sessStep, stopWebcam])⟩

theorem flightInv_run (f : Flight) (evs : List SessEv) (h : FlightInv f) :
    FlightInv (sessRun f evs) := by
  induction evs generalizing f with
  | nil => simpa [sessRun] using h
  | cons e es ih =>
      simpa [sessRun, List.foldl_cons] using ih (sessStep f e) (flightInv_step f e h)

theorem flightInv_le_one (f : Flight) (h : FlightInv f) : f.inflight ≤ 1 := by
  rcases h with h0 | ⟨h1, _⟩
  · simp [h0]
  · simp [h1]

theorem socket_none_step (f : Flight) (e : SessEv)
    (h : f.client.socket = none) : (sessStep f e).client.socket = none := by
  cases e with
  | sockOpen => simp [sessStep, sockConnect_of_socket_none _ h, h]
  | tick vw vh => simp [sessStep, frameTick_socket, h]
  | result d =>
      simp only [sessStep]
      split
      · exact h
      · simp [deliverResult_socket, h]
  | chanDown => simp [sessStep, sockDown_of_socket_none _ h, h]
  | stopEv => simp [sessStep, stopWebcam]

theorem socket_none_run (f : Flight) (evs : List SessEv)
    (h : f.client.socket = none) : (sessRun f evs).client.socket = none := by
  induction evs generalizing f with
  | nil => simpa [sessRun] using h
  | cons e es ih =>
      simpa [sessRun, List.foldl_cons] using
        ih (sessStep f e) (socket_none_step f e h)

/-! ## Claim theorems -/

/-- C1: on every capture tick with the single-flight latch (`waitingRef`)
set, the tick transmits nothing and buffers nothing (the state is
unchanged); along every session trace against a fake transport counting
in-flight sends, at most one transmission is outstanding at any time; and
a tick that does transmit leaves the latch set (in the source the flag is
assigned on the line preceding the `emit`). -/
theorem single_flight_latch :
    (∀ (s : ClientState) (vw vh : ℕ), s.waiting = true →
        frameTick s vw vh = (s, false)) ∧
    (∀ (s : ClientState) (evs : List SessEv),
        (sessRun (sessionStart s) evs).inflight ≤ 1) ∧
    (∀ (s : ClientState) (vw vh : ℕ), (frameTick s vw vh).2 = true →
        (frameTick s vw vh).1.waiting = true) := by
  refine ⟨fun s vw vh h => frameTick_of_waiting s vw vh h, ?_, ?_⟩
  · intro s evs
    exact flightInv_le_one _ (flightInv_run _ evs (Or.inl rfl))
  · intro s vw vh h
    rw [frameTick_eq] at h ⊢
    split at h
    case isTrue hc => simp [hc]
    case isFalse => simp at h

/-- Witness for C1 at concrete inputs: a three-event trace keeps at most
one frame in flight, and a tick at a state with the latch set changes
nothing. -/
theorem single_flight_latch_witness :
    (sessRun (sessionStart initialState)
      [.sockOpen, .tick 640 480, .tick 640 480]).inflight ≤ 1 ∧
    frameTick demoWaiting 640 480 = (demoWaiting, false) :=
  ⟨single_flight_latch.2.1 initialState [.sockOpen, .tick 640 480, .tick 640 480],
   single_flight_latch.1 demoWaiting 640 480 (by decide)⟩

/-- C2: a result arriving after `stopWebcam` for the session is discarded:
from any state in which stop was called (including with a frame in
flight), after any further session events, the `pose_analysis` delivery is
refused (the handler's socket is gone) and the client state — score,
error, joints, processed image — is unchanged, both at the component level
(`deliverResult`) and at the transport level (`sessStep` with a pending
result). -/
theorem stale_result_discarded (s : ClientState) (k : ℕ)
    (evs : List SessEv) (d : PoseData) :
    deliverResult (sessRun { client := stopWebcam s, inflight := k } evs).client d
      = ((sessRun { client := stopWebcam s, inflight := k } evs).client, false) ∧
    (sessStep (sessRun { client := stopWebcam s, inflight := k } evs)
        (.result d)).client
      = (sessRun { client := stopWebcam s, inflight := k } evs).client := by
  have hnone : (sessRun { client := stopWebcam s, inflight := k } evs).client.socket
      = none :=
    socket_none_run _ evs (by simp [stopWebcam])
  refine ⟨deliverResult_of_socket_none _ d hnone, ?_⟩
  simp only [sessStep]
  split
  · rfl
  · simp [deliverResult_of_socket_none _ d hnone]

/-- C3: `stopWebcam` is idempotent, is a no-op on the never-started state
(so a stop with no prior start is safe; every access in the source is
null-guarded, hence the embedding is total), and from every state it
leaves no camera stream, no socket, no scheduled loop and no video
source. -/
theorem stop_idempotent_safe (s : ClientState) :
    stopWebcam (stopWebcam s) = stopWebcam s ∧
    stopWebcam initialState = initialState ∧
    (stopWebcam s).stream = false ∧ (stopWebcam s).socket = none ∧
    (stopWebcam s).frameReq = false ∧ (stopWebcam s).videoSrc = false := by
  refine ⟨rfl, by decide, rfl, rfl, rfl, rfl⟩

/-- C4: the `pose_analysis` handler clears the single-flight latch for
every received result, error or not; consequently the next tick at a
state with the loop scheduled, a nonzero video width and a connected
socket does transmit. -/
theorem result_clears_latch (s : ClientState) (d : PoseData) (vw vh : ℕ) :
    (handlePoseAnalysis s d).waiting = false ∧
    (s.frameReq = true → s.socket = some { connected := true } → vw ≠ 0 →
      (frameTick (handlePoseAnalysis s d) vw vh).2 = true) := by
  refine ⟨handlePose_waiting s d, fun hfr hs hv => ?_⟩
  rw [frameTick_eq]
  rw [if_pos ⟨by rw [handlePose_frameReq, hfr], hv,
    handlePose_waiting s d, by rw [handlePose_socket, hs]⟩]

/-- Witness for C4 at concrete inputs: an error result and a success
result both clear the latch at `demoWaiting`, and the subsequent tick
transmits. -/
theorem result_clears_latch_witness :
    (handlePoseAnalysis demoWaiting demoErrData).waiting = false ∧
    (frameTick (handlePoseAnalysis demoWaiting demoData) 640 480).2 = true :=
  ⟨(result_clears_latch demoWaiting demoErrData 640 480).1,
   (result_clears_latch demoWaiting demoData 640 480).2 (by decide) (by decide)
     (by decide)⟩

/-- C5: the transmitted frame's width is `round(w · min(1, 960/w))` and is
at most the maximum width 960; the target height `round(h · min(1, 960/w))`
is the aspect-preserving height up to rounding (within 1/2 of the exact
scaled height); a source already at or below the maximum width is sent at
its original dimensions. -/
theorem transmit_dimensions (vw vh : ℕ) (h : 1 ≤ vw) :
    targetWidth vw = round ((vw : ℚ) * min 1 (960 / (vw : ℚ))) ∧
    targetWidth vw ≤ 960 ∧
    |(vh : ℚ) * scaleFor vw - (targetHeight vw vh : ℚ)| ≤ 1 / 2 ∧
    (vw ≤ 960 → targetWidth vw = vw ∧ targetHeight vw vh = vh) := by
  have hq0 : (0 : ℚ) < (vw : ℚ) := by exact_mod_cast h
  have hident : vw ≤ 960 → targetWidth vw = vw ∧ targetHeight vw vh = vh := by
    intro hle
    have h960 : (vw : ℚ) ≤ 960 := by exact_mod_cast hle
    have hs : scaleFor vw = 1 := by
      unfold scaleFor MAX_WIDTH
      rw [min_eq_left ((one_le_div hq0).mpr h960)]
    constructor
    · unfold targetWidth
      rw [hs, mul_one, round_natCast]
    · unfold targetHeight
      rw [hs, mul_one, round_natCast]
  refine ⟨rfl, ?_, ?_, hident⟩
  · rcases le_or_lt vw 960 with hle | hlt
    · rw [(hident hle).1]
      exact_mod_cast hle
    · have h960 : (960 : ℚ) < (vw : ℚ) := by exact_mod_cast hlt
      have hs : scaleFor vw = 960 / (vw : ℚ) := by
        unfold scaleFor MAX_WIDTH
        rw [min_eq_right (le_of_lt ((div_lt_one hq0).mpr h960))]
      unfold targetWidth
      rw [hs]
      have hm : (vw : ℚ) * (960 / (vw : ℚ)) = 960 := by field_simp
      rw [hm]
      have h9 : round ((960 : ℚ)) = (960 : ℤ) := by
        have := round_intCast (α := ℚ) 960
        exact_mod_cast this
      rw [h9]
  · exact abs_sub_round ((vh : ℚ) * scaleFor vw)

/-- Witness for C5 at a 1280×720 source: the frame is sent at 960×540,
within the bound. -/
theorem transmit_dimensions_witness :
    targetWidth 1280 ≤ 960 ∧ targetWidth 1280 = 960 ∧
    targetHeight 1280 720 = 540 ∧ targetWidth 640 = 640 ∧
    targetHeight 640 480 = 480 :=
  ⟨(transmit_dimensions 1280 720 (by norm_num)).2.1,
   by norm_num [targetWidth, scaleFor, MAX_WIDTH, round_eq],
   by norm_num [targetHeight, scaleFor, MAX_WIDTH, round_eq],
   ((transmit_dimensions 640 480 (by norm_num)).2.2.2 (by norm_num)).1,
   ((transmit_dimensions 640 480 (by norm_num)).2.2.2 (by norm_num)).2⟩

/-- C6 counterexample: a reachable session state refuting the claim. After
connect, one transmitting tick and a channel interruption, the client sits
with the latch set, the loop still scheduled, no error surfaced and no
reconnect or terminal service-unavailable state (the source registers no
disconnect handler and `io()` is called once, in `connectSocket`): the
very next tick changes nothing and transmits nothing — a fixpoint, so the
loop keeps ticking forever against the dead channel — and the pending
result can no longer be delivered. -/
theorem dead_channel_counterexample :
    deadFlight.client.waiting = true ∧
    deadFlight.client.frameReq = true ∧
    deadFlight.client.socket = some { connected := false } ∧
    deadFlight.client.error = none ∧
    deadFlight.inflight = 1 ∧
    sessStep deadFlight (.tick 640 480) = deadFlight ∧
    deliverResult deadFlight.client demoData = (deadFlight.client, false) := by
  refine ⟨rfl, rfl, rfl, rfl, rfl, ?_, rfl⟩
  decide

/-- C6 amended: the client attempts no bounded reconnect and surfaces no
terminal service-unavailable state; whenever the latch is set or the
channel is dead, a capture tick transmits nothing and changes nothing (the
loop spins), and a channel interruption itself neither clears the latch,
nor cancels the scheduled loop, nor sets any error state. -/
theorem dead_channel_spin (s : ClientState) (vw vh : ℕ)
    (h : s.waiting = true ∨ s.socket = some { connected := false } ∨
      s.socket = none) :
    frameTick s vw vh = (s, false) ∧
    (sockDown s).waiting = s.waiting ∧
    (sockDown s).frameReq = s.frameReq ∧
    (sockDown s).error = s.error := by
  refine ⟨?_, sockDown_waiting s, sockDown_frameReq s, sockDown_error s⟩
  rw [frameTick_eq]
  rcases h with hw | hs | hs
  · rw [if_neg]
    rintro ⟨-, -, hw', -⟩
    rw [hw] at hw'
    simp at hw'
  · rw [if_neg]
    rintro ⟨-, -, -, hs'⟩
    rw [hs] at hs'
    simp at hs'
  · rw [if_neg]
    rintro ⟨-, -, -, hs'⟩
    rw [hs] at hs'
    exact Option.noConfusion hs'

/-- Witness for C6's amended claim at the reachable dead-channel state. -/
theorem dead_channel_spin_witness :
    frameTick deadFlight.client 640 480 = (deadFlight.client, false) ∧
    (sockDown deadFlight.client).waiting = deadFlight.client.waiting :=
  ⟨(dead_channel_spin deadFlight.client 640 480 (Or.inl (by decide))).1,
   (dead_channel_spin deadFlight.client 640 480 (Or.inl (by decide))).2.1⟩

/-- C7: over the samples (0.50,0.30)×4 and (0.90,0.90), the `median`
baseline is exactly (0.50, 0.30) and the `average` baseline is exactly
(0.58, 0.42) = (29/50, 21/50); the two methods differ measurably on this
input. -/
theorem baseline_median_vs_average :
    collect_baseline .median baselineSamples = some (1/2, 3/10) ∧
    collect_baseline .average baselineSamples = some (29/50, 21/50) ∧
    collect_baseline .median baselineSamples ≠
      collect_baseline .average baselineSamples := by
  have h1 : collect_baseline .median baselineSamples = some (1/2, 3/10) := by
    norm_num [collect_baseline, medianQ, averageQ, sortAsc, insertAsc,
      baselineSamples]
  have h2 : collect_baseline .average baselineSamples
      = some (29/50, 21/50) := by
    norm_num [collect_baseline, medianQ, averageQ, sortAsc, insertAsc,
      baselineSamples]
  refine ⟨h1, h2, ?_⟩
  rw [h1, h2]
  simp only [ne_eq, Option.some.injEq, Prod.mk.injEq, not_and]
  intro hx
  norm_num at hx

/-- C8: `configure` with `angle_threshold = -5` is rejected with
`ConfigurationError`, and every rejected call is atomic: the session's
configuration after any failed call is the prior configuration, all
fields included. -/
theorem configure_rejected_atomic (c : ScoringConfig) (u : ConfigUpdate) :
    configure c { angle_threshold := some (-5) } = .error .outOfRange ∧
    (∀ e, configure c u = .error e → configAfter c u = c) ∧
    configAfter c { angle_threshold := some (-5) } = c := by
  have hv : validConfig (applyUpdate c { angle_threshold := some (-5) })
      = false := by
    unfold validConfig applyUpdate
    simp only [Option.getD_some, Option.getD_none]
    have h3 : decide ((0:ℚ) ≤ -5) = false := by decide
    simp [h3]
  have hrej : configure c { angle_threshold := some (-5) }
      = .error .outOfRange := by
    unfold configure
    simp [hv]
  have hatomic : ∀ e, configure c u = .error e → configAfter c u = c := by
    intro e he
    unfold configAfter
    rw [he]
  exact ⟨hrej, hatomic, by unfold configAfter; rw [hrej]⟩

/-- Witness for C8 at the default configuration: the call errors and the
configuration is unchanged. -/
theorem configure_rejected_atomic_witness :
    configure defaultConfig { angle_threshold := some (-5) }
      = .error .outOfRange ∧
    configAfter defaultConfig { angle_threshold := some (-5) }
      = defaultConfig :=
  ⟨(configure_rejected_atomic defaultConfig
      { angle_threshold := some (-5) }).1,
   (configure_rejected_atomic defaultConfig
      { angle_threshold := some (-5) }).2.1 .outOfRange
     (configure_rejected_atomic defaultConfig
      { angle_threshold := some (-5) }).1⟩

/-- C9: in the refinement step of `autoCorrelate`, numerator and
denominator of the shift are the identical expression
`correlation - lastCorrelation`; whenever the two correlations differ the
shift is exactly 1 and the early return equals
`sampleRate / (bestOffset + 1)` independently of the correlation
magnitudes, and the denominator is zero exactly when the two correlations
are equal — a degenerate no-op adjustment, not an interpolation. -/
theorem refinement_shift_degenerate (c lc sr bo : ℚ) :
    (c ≠ lc → refinementShift c lc = 1 ∧
      refinedFrequency sr bo c lc = sr / (bo + 1)) ∧
    (c - lc = 0 ↔ c = lc) := by
  constructor
  · intro hne
    have h1 : refinementShift c lc = 1 :=
      div_self (sub_ne_zero.mpr hne)
    exact ⟨h1, by unfold refinedFrequency; rw [h1]⟩
  · exact sub_eq_zero

/-- Witness for C9 at correlations 0.95 and 0.9, sample rate 44100,
best offset 100: the shift is 1 and the refined frequency is
44100 / 101. -/
theorem refinement_shift_degenerate_witness :
    refinementShift (95/100) (9/10) = 1 ∧
    refinedFrequency 44100 100 (95/100) (9/10) = 44100 / 101 ∧
    ((95:ℚ)/100 - 9/10 = 0 ↔ (95:ℚ)/100 = 9/10) :=
  ⟨((refinement_shift_degenerate (95/100) (9/10) 44100 100).1
      (by norm_num)).1,
   by
    have := ((refinement_shift_degenerate (95/100) (9/10) 44100 100).1
      (by norm_num)).2
    rw [this]; norm_num,
   (refinement_shift_degenerate (95/100) (9/10) 44100 100).2⟩

/-- C10: after `stopWebcam` from any prior state, the latch is clear, the
stream, socket, loop handle and video source are null and the processed
image is cleared; a subsequent `startWebcam` therefore begins with a clear
latch, and its first ready tick (video delivering frames, socket
connected) does transmit instead of inheriting a stuck in-flight flag. -/
theorem stop_resets_for_restart (s : ClientState) (vw vh : ℕ)
    (h : vw ≠ 0) :
    (stopWebcam s).waiting = false ∧
    (stopWebcam s).stream = false ∧
    (stopWebcam s).socket = none ∧
    (stopWebcam s).videoSrc = false ∧
    (stopWebcam s).processedImg = none ∧
    (startWebcam (stopWebcam s)).waiting = false ∧
    (frameTick (sockConnect (startWebcam (stopWebcam s))) vw vh).2 = true := by
  refine ⟨rfl, rfl, rfl, rfl, rfl, rfl, ?_⟩
  rw [frameTick_eq, if_pos ⟨rfl, h, rfl, rfl⟩]

/-- Witness for C10: stopping from the in-flight state `demoWaiting` and
restarting yields a first tick that transmits. -/
theorem stop_resets_for_restart_witness :
    (stopWebcam demoWaiting).waiting = false ∧
    (frameTick (sockConnect (startWebcam (stopWebcam demoWaiting)))
      640 480).2 = true :=
  ⟨(stop_resets_for_restart demoWaiting 640 480 (by decide)).1,
   (stop_resets_for_restart demoWaiting 640 480 (by decide)).2.2.2.2.2.2⟩

end Violina
